import Mathlib

/-!
Volume operations adapter (`pkg/spawnerservice/aws/volume.go`)

A shallow embedding of the four request handlers `CreateVolume`, `DeleteVolume`,
`CreateSnapshot`, `CreateSnapshotAndDelete` and of the helper `LogError`.

Go pointers are `Option`s (`none` is `nil`), a Go `error` is `Option Err`, and the
external collaborators are explicit:

* the structured logger is the list of entries it has received (`World.log`);
* the cloud provider is a state `σ` together with the three primitives of a client
  (`EC2`), each a state transformer, so that a provider may answer two identical
  calls differently;
* every invocation of a provider primitive by a handler is recorded, with its
  input, in `World.calls`;
* a handler either returns a `(response, error)` pair or faults on a nil
  dereference (`Outcome.panicked`).

Nil values that are modelled: the request pointer, the client the factory hands back,
the result pointer of a provider call and the identifier pointer inside it. The client
factory receives the logger and hands it back as it left it. The controller's logger
itself is taken to be non-nil. The unused `ctx` argument is left out.
-/

namespace Spawner

/-! ## Errors and the logger -/

/-- A non-nil Go `error` value. `text` is what `Error()` returns; `code` is `some c`
exactly when the value also implements `awserr.Error` (and `c` is its `Code()`). -/
structure Err where
  text : String
  code : Option String
deriving DecidableEq, Repr

/-- A value handed to `Errorw` in the variadic `keysAndValues` list: a string or an
`error` value. -/
inductive LogValue where
  | str (s : String)
  | err (e : Err)
deriving DecidableEq, Repr

/-- One call of `logger.Errorw(msg, keysAndValues...)`. -/
structure LogEntry where
  msg : String
  keysAndValues : List LogValue
deriving DecidableEq, Repr

/-- The text the logger writes for a value: a string as it is, an error by `Error()`. -/
def LogValue.render : LogValue → String
  | LogValue.str s => s
  | LogValue.err e => e.text

/-- Whether the characters `t` occur contiguously in `s`. -/
def occursIn (t s : List Char) : Bool :=
  s.tails.any (fun u => t.isPrefixOf u)

/-- An entry includes the text `t` when `t` occurs in its message or in one of its
rendered keys and values. -/
def LogEntry.includes (en : LogEntry) (t : String) : Bool :=
  occursIn t.data en.msg.data ||
    en.keysAndValues.any (fun v => occursIn t.data v.render.data)

/-- The function `LogError(methodName, logger, err)`; the logger is the list of entries
received so far and the result is that list afterwards. -/
def LogError (methodName : String) (logger : List LogEntry) (err : Option Err) :
    List LogEntry :=
  match err with
  | none => logger
  | some e =>
    let logger1 :=
      match e.code with
      | some _ =>
        logger ++ [⟨"Error in ", [LogValue.str "method : ", LogValue.str methodName,
          LogValue.str "error", LogValue.str e.text]⟩]
      | none =>
        logger ++ [⟨"Error in ", [LogValue.str "method : ", LogValue.str methodName,
          LogValue.str "error", LogValue.str e.text]⟩]
    logger1 ++ [⟨"Error in ", [LogValue.str "method : ", LogValue.str methodName,
      LogValue.str "error", LogValue.err e]⟩]

/-! ## Protocol messages (`pb`) -/

structure CreateVolumeRequest where
  Availabilityzone : String
  Volumetype : String
  Size : Int
  Snapshotid : String
  Region : String
deriving DecidableEq, Repr

structure CreateVolumeResponse where
  Volumeid : String := ""
  Error : String := ""
deriving DecidableEq, Repr

structure DeleteVolumeRequest where
  Volumeid : String
  Region : String
deriving DecidableEq, Repr

structure DeleteVolumeResponse where
  Deleted : Bool := false
deriving DecidableEq, Repr

structure CreateSnapshotRequest where
  Volumeid : String
  Region : String
deriving DecidableEq, Repr

structure CreateSnapshotResponse where
  Snapshotid : String := ""
deriving DecidableEq, Repr

structure CreateSnapshotAndDeleteRequest where
  Volumeid : String
  Region : String
deriving DecidableEq, Repr

structure CreateSnapshotAndDeleteResponse where
  Snapshotid : String := ""
  Deleted : Bool := false
deriving DecidableEq, Repr

/-- Generated getter: the field, or the zero value on a nil receiver. -/
def CreateVolumeRequest.GetAvailabilityzone : Option CreateVolumeRequest → String
  | some x => x.Availabilityzone
  | none => ""

/-- Generated getter: the field, or the zero value on a nil receiver. -/
def CreateVolumeRequest.GetVolumetype : Option CreateVolumeRequest → String
  | some x => x.Volumetype
  | none => ""

/-- Generated getter: the field, or the zero value on a nil receiver. -/
def CreateVolumeRequest.GetSize : Option CreateVolumeRequest → Int
  | some x => x.Size
  | none => 0

/-- Generated getter: the field, or the zero value on a nil receiver. -/
def CreateVolumeRequest.GetSnapshotid : Option CreateVolumeRequest → String
  | some x => x.Snapshotid
  | none => ""

/-- Generated getter: the field, or the zero value on a nil receiver. -/
def DeleteVolumeRequest.GetVolumeid : Option DeleteVolumeRequest → String
  | some x => x.Volumeid
  | none => ""

/-- Generated getter: the field, or the zero value on a nil receiver. -/
def CreateSnapshotRequest.GetVolumeid : Option CreateSnapshotRequest → String
  | some x => x.Volumeid
  | none => ""

/-- Generated getter: the field, or the zero value on a nil receiver. -/
def CreateSnapshotAndDeleteRequest.GetVolumeid :
    Option CreateSnapshotAndDeleteRequest → String
  | some x => x.Volumeid
  | none => ""

/-! ## Provider messages (`ec2`) and the client -/

/-- The fields of `ec2.CreateVolumeInput` the adapter sets; each is a pointer. -/
structure CreateVolumeInput where
  AvailabilityZone : Option String
  VolumeType : Option String
  Size : Option Int
  SnapshotId : Option String
deriving DecidableEq, Repr

structure DeleteVolumeInput where
  VolumeId : Option String
deriving DecidableEq, Repr

structure CreateSnapshotInput where
  VolumeId : Option String
deriving DecidableEq, Repr

/-- The part of `ec2.Volume` the adapter reads. -/
structure Volume where
  VolumeId : Option String
deriving DecidableEq, Repr

/-- The part of `ec2.Snapshot` the adapter reads. -/
structure Snapshot where
  SnapshotId : Option String
deriving DecidableEq, Repr

/-- The type `ec2.DeleteVolumeOutput`, which carries nothing. -/
structure DeleteVolumeOutput where
deriving DecidableEq, Repr

/-- The helper `aws.String`: a pointer to the given string, never nil. -/
def aws.String (v : String) : Option String := some v

/-- The helper `aws.Int64`: a pointer to the given integer, never nil. -/
def aws.Int64 (v : Int) : Option Int := some v

/-- A region-scoped provider client: the three primitives the adapter calls. Each
returns Go's `(result, err)` pair and the provider's next state. -/
structure EC2 (σ : Type) where
  CreateVolume : CreateVolumeInput → σ → (Option Volume × Option Err) × σ
  DeleteVolume : DeleteVolumeInput → σ → (Option DeleteVolumeOutput × Option Err) × σ
  CreateSnapshot : CreateSnapshotInput → σ → (Option Snapshot × Option Err) × σ

/-- The receiver `AWSController`: its region-scoped client factory
`sessionClient(region, logger)`. The factory is not part of `volume.go`; it is a
parameter here. It is given the region, the logger and the provider's state, and hands
back Go's `(client, err)` pair, in which either component may be nil, together with the
logger and the provider's state as it left them. -/
structure AWSController (σ : Type) where
  sessionClient :
    String → List LogEntry → σ → (Option (EC2 σ) × Option Err) × List LogEntry × σ

/-- An invocation of a provider primitive, with the input it was given. -/
inductive Call where
  | createVolume (input : CreateVolumeInput)
  | deleteVolume (input : DeleteVolumeInput)
  | createSnapshot (input : CreateSnapshotInput)
deriving DecidableEq, Repr

/-- Everything outside the handler: the provider's state, the entries the logger has
received, and the provider primitives invoked so far (oldest first). -/
structure World (σ : Type) where
  prov : σ
  log : List LogEntry
  calls : List Call

/-- How a handler ends: with Go's `(response, error)` pair, or by a nil dereference. -/
inductive Outcome (α : Type) where
  | returned (resp : Option α) (err : Option Err)
  | panicked
deriving DecidableEq, Repr

/-- Number of `DeleteVolume` invocations in a list of provider calls. -/
def deleteCalls : List Call → Nat
  | [] => 0
  | Call.deleteVolume _ :: cs => deleteCalls cs + 1
  | _ :: cs => deleteCalls cs

/-- The entry `logger.Errorw("Can't start AWS session", "error", err)`. -/
def sessionFailureEntry (err : Err) : LogEntry :=
  ⟨"Can't start AWS session", [LogValue.str "error", LogValue.err err]⟩

/-! ## The handlers -/

/-- The method `AWSController.CreateVolume`. -/
def CreateVolume {σ : Type} (svc : AWSController σ) (req : Option CreateVolumeRequest)
    (w : World σ) : Outcome CreateVolumeResponse × World σ :=
  let logger := w.log
  let availabilityZone := CreateVolumeRequest.GetAvailabilityzone req
  let volumeType := CreateVolumeRequest.GetVolumetype req
  let size := CreateVolumeRequest.GetSize req
  let snapshotId := CreateVolumeRequest.GetSnapshotid req
  match req with
  | none => (Outcome.panicked, w)
  | some r =>
    let region := r.Region
    let input : CreateVolumeInput :=
      { AvailabilityZone := aws.String availabilityZone
        VolumeType := aws.String volumeType
        Size := aws.Int64 size
        SnapshotId := aws.String snapshotId }
    match svc.sessionClient region logger w.prov with
    | ((_, some err), logger1, s1) =>
      (Outcome.returned none (some err),
        { prov := s1, log := logger1 ++ [sessionFailureEntry err], calls := w.calls })
    | ((none, none), logger1, s1) =>
      (Outcome.panicked, { prov := s1, log := logger1, calls := w.calls })
    | ((some awsSvc, none), logger1, s1) =>
      match awsSvc.CreateVolume input s1 with
      | ((_, some err), s2) =>
        (Outcome.returned (some {}) (some err),
          { prov := s2, log := LogError "CreateVolume" logger1 (some err),
            calls := w.calls ++ [Call.createVolume input] })
      | ((result, none), s2) =>
        let w2 : World σ :=
          { prov := s2, log := logger1, calls := w.calls ++ [Call.createVolume input] }
        match result with
        | some ⟨some volumeId⟩ =>
          (Outcome.returned (some { Volumeid := volumeId, Error := "" }) none, w2)
        | _ => (Outcome.panicked, w2)

/-- The method `AWSController.DeleteVolume`. -/
def DeleteVolume {σ : Type} (svc : AWSController σ) (req : Option DeleteVolumeRequest)
    (w : World σ) : Outcome DeleteVolumeResponse × World σ :=
  let logger := w.log
  let volumeid := DeleteVolumeRequest.GetVolumeid req
  match req with
  | none => (Outcome.panicked, w)
  | some r =>
    let region := r.Region
    let input : DeleteVolumeInput := { VolumeId := aws.String volumeid }
    match svc.sessionClient region logger w.prov with
    | ((_, some err), logger1, s1) =>
      (Outcome.returned none (some err),
        { prov := s1, log := logger1 ++ [sessionFailureEntry err], calls := w.calls })
    | ((none, none), logger1, s1) =>
      (Outcome.panicked, { prov := s1, log := logger1, calls := w.calls })
    | ((some awsSvc, none), logger1, s1) =>
      match awsSvc.DeleteVolume input s1 with
      | ((_, some err), s2) =>
        (Outcome.returned (some {}) (some err),
          { prov := s2, log := LogError "DeleteVolume" logger1 (some err),
            calls := w.calls ++ [Call.deleteVolume input] })
      | ((_, none), s2) =>
        (Outcome.returned (some { Deleted := true }) none,
          { prov := s2, log := logger1, calls := w.calls ++ [Call.deleteVolume input] })

/-- The method `AWSController.CreateSnapshot`. -/
def CreateSnapshot {σ : Type} (svc : AWSController σ) (req : Option CreateSnapshotRequest)
    (w : World σ) : Outcome CreateSnapshotResponse × World σ :=
  let logger := w.log
  let volumeid := CreateSnapshotRequest.GetVolumeid req
  match req with
  | none => (Outcome.panicked, w)
  | some r =>
    let region := r.Region
    let input : CreateSnapshotInput := { VolumeId := aws.String volumeid }
    match svc.sessionClient region logger w.prov with
    | ((_, some err), logger1, s1) =>
      (Outcome.returned none (some err),
        { prov := s1, log := logger1 ++ [sessionFailureEntry err], calls := w.calls })
    | ((none, none), logger1, s1) =>
      (Outcome.panicked, { prov := s1, log := logger1, calls := w.calls })
    | ((some awsSvc, none), logger1, s1) =>
      match awsSvc.CreateSnapshot input s1 with
      | ((_, some err), s2) =>
        (Outcome.returned (some {}) (some err),
          { prov := s2, log := LogError "CreateSnapshot" logger1 (some err),
            calls := w.calls ++ [Call.createSnapshot input] })
      | ((result, none), s2) =>
        let w2 : World σ :=
          { prov := s2, log := logger1, calls := w.calls ++ [Call.createSnapshot input] }
        match result with
        | some ⟨some snapshotId⟩ =>
          (Outcome.returned (some { Snapshotid := snapshotId }) none, w2)
        | _ => (Outcome.panicked, w2)

/-- The method `AWSController.CreateSnapshotAndDelete`. -/
def CreateSnapshotAndDelete {σ : Type} (svc : AWSController σ)
    (req : Option CreateSnapshotAndDeleteRequest) (w : World σ) :
    Outcome CreateSnapshotAndDeleteResponse × World σ :=
  let logger := w.log
  let volumeid := CreateSnapshotAndDeleteRequest.GetVolumeid req
  match req with
  | none => (Outcome.panicked, w)
  | some r =>
    let region := r.Region
    let inputSnapshot : CreateSnapshotInput := { VolumeId := aws.String volumeid }
    match svc.sessionClient region logger w.prov with
    | ((_, some err), logger1, s1) =>
      (Outcome.returned none (some err),
        { prov := s1, log := logger1 ++ [sessionFailureEntry err], calls := w.calls })
    | ((none, none), logger1, s1) =>
      (Outcome.panicked, { prov := s1, log := logger1, calls := w.calls })
    | ((some awsSvc, none), logger1, s1) =>
      match awsSvc.CreateSnapshot inputSnapshot s1 with
      | ((_, some err), s2) =>
        (Outcome.returned (some {}) (some err),
          { prov := s2, log := LogError "CreateSnapshot" logger1 (some err),
            calls := w.calls ++ [Call.createSnapshot inputSnapshot] })
      | ((resultSnapshot, none), s2) =>
        let inputDelete : DeleteVolumeInput := { VolumeId := aws.String volumeid }
        let calls3 :=
          w.calls ++ [Call.createSnapshot inputSnapshot, Call.deleteVolume inputDelete]
        match awsSvc.DeleteVolume inputDelete s2 with
        | ((_, some err), s3) =>
          let w3 : World σ :=
            { prov := s3, log := LogError "DeleteVolume" logger1 (some err),
              calls := calls3 }
          match resultSnapshot with
          | some ⟨some snapshotId⟩ =>
            (Outcome.returned (some { Snapshotid := snapshotId, Deleted := false })
              (some err), w3)
          | _ => (Outcome.panicked, w3)
        | ((_, none), s3) =>
          let w3 : World σ := { prov := s3, log := logger1, calls := calls3 }
          match resultSnapshot with
          | some ⟨some snapshotId⟩ =>
            (Outcome.returned (some { Snapshotid := snapshotId, Deleted := true }) none, w3)
          | _ => (Outcome.panicked, w3)

/-! ## Provider contracts and scripted collaborators -/

/-- The answers of a scripted provider: one fixed answer for volume-create, one for
snapshot-create, and the errors of the successive delete-volume calls (no error once
the list is used up). -/
structure Script where
  createVolume : Option Volume × Option Err
  createSnapshot : Option Snapshot × Option Err
  deleteVolume : List (Option Err)

/-- A client that answers from a script and keeps, as the provider's state, the list
of calls it has received. -/
def scriptedClient (sc : Script) : EC2 (List Call) where
  CreateVolume i s := (sc.createVolume, s ++ [Call.createVolume i])
  DeleteVolume i s :=
    ((some {}, sc.deleteVolume.getD (deleteCalls s) none), s ++ [Call.deleteVolume i])
  CreateSnapshot i s := (sc.createSnapshot, s ++ [Call.createSnapshot i])

/-- A controller whose factory always hands out the scripted client and writes nothing
to the logger. -/
def scriptedSvc (sc : Script) : AWSController (List Call) where
  sessionClient _ logger s := ((some (scriptedClient sc), none), logger, s)

/-- A controller whose factory always fails with the given error and writes nothing to
the logger. -/
def failingSvc (e : Err) : AWSController (List Call) where
  sessionClient _ logger s := ((none, some e), logger, s)

/-- A world in which nothing has happened yet. -/
def freshWorld : World (List Call) := { prov := [], log := [], calls := [] }

def noCredentials : Err := { text := "no credentials", code := none }

def volumeInUse : Err := { text := "VolumeInUse: vol-1 is attached", code := some "VolumeInUse" }

def notFound : Err :=
  { text := "InvalidVolume.NotFound: vol-1", code := some "InvalidVolume.NotFound" }

/-- A script in which every primitive succeeds. -/
def happyScript : Script :=
  { createVolume := (some ⟨some "vol-9"⟩, none)
    createSnapshot := (some ⟨some "snap-2"⟩, none)
    deleteVolume := [] }

/-- A script in which snapshot-create succeeds and the first delete-volume fails. -/
def deleteFailsScript : Script :=
  { createVolume := (some ⟨some "vol-9"⟩, none)
    createSnapshot := (some ⟨some "snap-1"⟩, none)
    deleteVolume := [some volumeInUse] }

/-- A script in which volume-create and snapshot-create fail. -/
def createFailsScript : Script :=
  { createVolume := (none, some notFound)
    createSnapshot := (none, some notFound)
    deleteVolume := [] }

/-- A script whose first delete-volume succeeds and whose second fails. -/
def deleteTwiceScript : Script :=
  { createVolume := (some ⟨some "vol-9"⟩, none)
    createSnapshot := (some ⟨some "snap-1"⟩, none)
    deleteVolume := [none, some notFound] }

/-- A script whose volume-create succeeds with an empty identifier. -/
def emptyIdScript : Script :=
  { createVolume := (some ⟨some ""⟩, none)
    createSnapshot := (some ⟨some "snap-1"⟩, none)
    deleteVolume := [] }

def volumeRequest : CreateVolumeRequest :=
  { Availabilityzone := "us-east-1a", Volumetype := "gp2", Size := 8, Snapshotid := "",
    Region := "us-east-1" }

def deleteRequest : DeleteVolumeRequest := { Volumeid := "vol-1", Region := "us-east-1" }

def snapshotRequest : CreateSnapshotRequest := { Volumeid := "vol-1", Region := "us-east-1" }

def snapshotAndDeleteRequest : CreateSnapshotAndDeleteRequest :=
  { Volumeid := "vol-1", Region := "us-east-1" }

/-! ## Helper lemmas -/

theorem deleteCalls_append (xs ys : List Call) :
    deleteCalls (xs ++ ys) = deleteCalls xs + deleteCalls ys := by
  induction xs with
  | nil => simp [deleteCalls]
  | cons c cs ih =>
    cases c
    · simp [deleteCalls, ih]
    · simp [deleteCalls, ih]; omega
    · simp [deleteCalls, ih]

theorem occursIn_self (t : List Char) : occursIn t t = true := by
  cases t <;> simp [occursIn, List.tails]

theorem includes_of_mem (en : LogEntry) (v : LogValue) (h : v ∈ en.keysAndValues) :
    en.includes v.render = true := by
  simp only [LogEntry.includes, Bool.or_eq_true, List.any_eq_true]
  exact Or.inr ⟨v, h, occursIn_self _⟩

theorem LogError_some (methodName : String) (logger : List LogEntry) (e : Err) :
    LogError methodName logger (some e) =
      logger ++
        [⟨"Error in ", [LogValue.str "method : ", LogValue.str methodName,
            LogValue.str "error", LogValue.str e.text]⟩,
          ⟨"Error in ", [LogValue.str "method : ", LogValue.str methodName,
            LogValue.str "error", LogValue.err e]⟩] := by
  cases h : e.code <;> simp [LogError, h]

/-- C1: when client construction succeeds, snapshot-create returns the identifier `s`
without error and delete-volume returns the error `e`, `CreateSnapshotAndDelete` returns
the response with `Snapshotid = s`, `Deleted = false`, together with the error `e`. -/
theorem CreateSnapshotAndDelete_delete_failure {σ : Type} (svc : AWSController σ)
    (r : CreateSnapshotAndDeleteRequest) (w : World σ) (awsSvc : EC2 σ)
    (l1 : List LogEntry) (s1 s2 s3 : σ)
    (s : String) (out : Option DeleteVolumeOutput) (e : Err)
    (hclient : svc.sessionClient r.Region w.log w.prov = ((some awsSvc, none), l1, s1))
    (hsnap : awsSvc.CreateSnapshot ⟨some r.Volumeid⟩ s1 = ((some ⟨some s⟩, none), s2))
    (hdel : awsSvc.DeleteVolume ⟨some r.Volumeid⟩ s2 = ((out, some e), s3)) :
    (CreateSnapshotAndDelete svc (some r) w).1 =
      Outcome.returned (some { Snapshotid := s, Deleted := false }) (some e) := by
  simp [CreateSnapshotAndDelete, CreateSnapshotAndDeleteRequest.GetVolumeid, aws.String,
    hclient, hsnap, hdel]

theorem CreateSnapshotAndDelete_delete_failure_witness :
    (scriptedSvc deleteFailsScript).sessionClient snapshotAndDeleteRequest.Region
        freshWorld.log freshWorld.prov =
      ((some (scriptedClient deleteFailsScript), none), [], []) ∧
    (CreateSnapshotAndDelete (scriptedSvc deleteFailsScript)
        (some snapshotAndDeleteRequest) freshWorld).1 =
      Outcome.returned (some { Snapshotid := "snap-1", Deleted := false })
        (some volumeInUse) :=
  ⟨rfl, CreateSnapshotAndDelete_delete_failure (scriptedSvc deleteFailsScript)
    snapshotAndDeleteRequest freshWorld (scriptedClient deleteFailsScript) [] [] _ _
    "snap-1" _ volumeInUse rfl rfl rfl⟩

/-- C2: when client construction succeeds and snapshot-create returns the error `e`,
`CreateSnapshotAndDelete` returns the empty response (`Snapshotid = ""`,
`Deleted = false`) with the error `e`; the only provider primitive invoked is that one
snapshot-create, so delete-volume is invoked zero times and the provider is left in
the state the snapshot call produced. -/
theorem CreateSnapshotAndDelete_snapshot_failure {σ : Type} (svc : AWSController σ)
    (r : CreateSnapshotAndDeleteRequest) (w : World σ) (awsSvc : EC2 σ)
    (l1 : List LogEntry) (s1 s2 : σ)
    (res : Option Snapshot) (e : Err)
    (hclient : svc.sessionClient r.Region w.log w.prov = ((some awsSvc, none), l1, s1))
    (hsnap : awsSvc.CreateSnapshot ⟨some r.Volumeid⟩ s1 = ((res, some e), s2)) :
    (CreateSnapshotAndDelete svc (some r) w).1 =
      Outcome.returned (some { Snapshotid := "", Deleted := false }) (some e) ∧
    (CreateSnapshotAndDelete svc (some r) w).2.calls =
      w.calls ++ [Call.createSnapshot ⟨some r.Volumeid⟩] ∧
    deleteCalls (CreateSnapshotAndDelete svc (some r) w).2.calls = deleteCalls w.calls ∧
    (CreateSnapshotAndDelete svc (some r) w).2.prov = s2 := by
  simp [CreateSnapshotAndDelete, CreateSnapshotAndDeleteRequest.GetVolumeid, aws.String,
    hclient, hsnap, deleteCalls_append, deleteCalls]

theorem CreateSnapshotAndDelete_snapshot_failure_witness :
    (scriptedClient createFailsScript).CreateSnapshot
        ⟨some snapshotAndDeleteRequest.Volumeid⟩ [] =
      ((none, some notFound), [Call.createSnapshot ⟨some "vol-1"⟩]) ∧
    (CreateSnapshotAndDelete (scriptedSvc createFailsScript)
        (some snapshotAndDeleteRequest) freshWorld).1 =
      Outcome.returned (some { Snapshotid := "", Deleted := false }) (some notFound) ∧
    (CreateSnapshotAndDelete (scriptedSvc createFailsScript)
        (some snapshotAndDeleteRequest) freshWorld).2.calls =
      freshWorld.calls ++ [Call.createSnapshot ⟨some "vol-1"⟩] ∧
    deleteCalls (CreateSnapshotAndDelete (scriptedSvc createFailsScript)
        (some snapshotAndDeleteRequest) freshWorld).2.calls = deleteCalls freshWorld.calls ∧
    (CreateSnapshotAndDelete (scriptedSvc createFailsScript)
        (some snapshotAndDeleteRequest) freshWorld).2.prov =
      [Call.createSnapshot ⟨some "vol-1"⟩] :=
  ⟨rfl, CreateSnapshotAndDelete_snapshot_failure (scriptedSvc createFailsScript)
    snapshotAndDeleteRequest freshWorld (scriptedClient createFailsScript) [] [] _
    none notFound rfl rfl⟩

/-- C5: when client construction succeeds, snapshot-create returns the identifier `s`
without error and delete-volume, called with the request's volume id, returns no error,
`CreateSnapshotAndDelete` returns the response with `Snapshotid = s`, `Deleted = true`
and a nil error. -/
theorem CreateSnapshotAndDelete_full_success {σ : Type} (svc : AWSController σ)
    (r : CreateSnapshotAndDeleteRequest) (w : World σ) (awsSvc : EC2 σ)
    (l1 : List LogEntry) (s1 s2 s3 : σ)
    (s : String) (out : Option DeleteVolumeOutput)
    (hclient : svc.sessionClient r.Region w.log w.prov = ((some awsSvc, none), l1, s1))
    (hsnap : awsSvc.CreateSnapshot ⟨some r.Volumeid⟩ s1 = ((some ⟨some s⟩, none), s2))
    (hdel : awsSvc.DeleteVolume ⟨some r.Volumeid⟩ s2 = ((out, none), s3)) :
    (CreateSnapshotAndDelete svc (some r) w).1 =
      Outcome.returned (some { Snapshotid := s, Deleted := true }) none := by
  simp [CreateSnapshotAndDelete, CreateSnapshotAndDeleteRequest.GetVolumeid, aws.String,
    hclient, hsnap, hdel]

theorem CreateSnapshotAndDelete_full_success_witness :
    (scriptedClient happyScript).DeleteVolume ⟨some snapshotAndDeleteRequest.Volumeid⟩
        [Call.createSnapshot ⟨some "vol-1"⟩] =
      ((some {}, none),
        [Call.createSnapshot ⟨some "vol-1"⟩, Call.deleteVolume ⟨some "vol-1"⟩]) ∧
    (CreateSnapshotAndDelete (scriptedSvc happyScript)
        (some snapshotAndDeleteRequest) freshWorld).1 =
      Outcome.returned (some { Snapshotid := "snap-2", Deleted := true }) none :=
  ⟨rfl, CreateSnapshotAndDelete_full_success (scriptedSvc happyScript)
    snapshotAndDeleteRequest freshWorld (scriptedClient happyScript) [] [] _ _
    "snap-2" _ rfl rfl rfl⟩

/-! ## Client-construction failure -/

/-- C3: for each of `CreateVolume`, `DeleteVolume`, `CreateSnapshot` and
`CreateSnapshotAndDelete`, and every request for the region, when the client factory
returns the error `e` (whatever client value comes with it) the handler returns a nil
response with the error `e`, invokes no provider primitive (the recorded calls are
unchanged) and leaves the provider in the state the factory left it in. -/
theorem client_failure_short_circuits {σ : Type} (svc : AWSController σ) (w : World σ)
    (region : String) (c : Option (EC2 σ)) (e : Err) (l1 : List LogEntry) (s1 : σ)
    (hclient : svc.sessionClient region w.log w.prov = ((c, some e), l1, s1)) :
    (∀ r : CreateVolumeRequest, r.Region = region →
      (CreateVolume svc (some r) w).1 = Outcome.returned none (some e) ∧
      (CreateVolume svc (some r) w).2.calls = w.calls ∧
      (CreateVolume svc (some r) w).2.prov = s1) ∧
    (∀ r : DeleteVolumeRequest, r.Region = region →
      (DeleteVolume svc (some r) w).1 = Outcome.returned none (some e) ∧
      (DeleteVolume svc (some r) w).2.calls = w.calls ∧
      (DeleteVolume svc (some r) w).2.prov = s1) ∧
    (∀ r : CreateSnapshotRequest, r.Region = region →
      (CreateSnapshot svc (some r) w).1 = Outcome.returned none (some e) ∧
      (CreateSnapshot svc (some r) w).2.calls = w.calls ∧
      (CreateSnapshot svc (some r) w).2.prov = s1) ∧
    (∀ r : CreateSnapshotAndDeleteRequest, r.Region = region →
      (CreateSnapshotAndDelete svc (some r) w).1 = Outcome.returned none (some e) ∧
      (CreateSnapshotAndDelete svc (some r) w).2.calls = w.calls ∧
      (CreateSnapshotAndDelete svc (some r) w).2.prov = s1) := by
  refine ⟨?_, ?_, ?_, ?_⟩ <;> intro r hr <;> subst hr
  · simp [CreateVolume, hclient]
  · simp [DeleteVolume, hclient]
  · simp [CreateSnapshot, hclient]
  · simp [CreateSnapshotAndDelete, hclient]

theorem client_failure_short_circuits_witness :
    (failingSvc noCredentials).sessionClient "us-east-1" freshWorld.log freshWorld.prov =
      ((none, some noCredentials), [], []) ∧
    ((CreateVolume (failingSvc noCredentials) (some volumeRequest) freshWorld).1 =
        Outcome.returned none (some noCredentials) ∧
      (CreateVolume (failingSvc noCredentials) (some volumeRequest) freshWorld).2.calls =
        freshWorld.calls ∧
      (CreateVolume (failingSvc noCredentials) (some volumeRequest) freshWorld).2.prov
        = []) ∧
    ((CreateSnapshotAndDelete (failingSvc noCredentials) (some snapshotAndDeleteRequest)
          freshWorld).1 = Outcome.returned none (some noCredentials) ∧
      (CreateSnapshotAndDelete (failingSvc noCredentials) (some snapshotAndDeleteRequest)
          freshWorld).2.calls = freshWorld.calls ∧
      (CreateSnapshotAndDelete (failingSvc noCredentials) (some snapshotAndDeleteRequest)
          freshWorld).2.prov = []) :=
  ⟨rfl,
    (client_failure_short_circuits (failingSvc noCredentials) freshWorld "us-east-1"
      none noCredentials [] [] rfl).1 volumeRequest rfl,
    (client_failure_short_circuits (failingSvc noCredentials) freshWorld "us-east-1"
      none noCredentials [] [] rfl).2.2.2 snapshotAndDeleteRequest rfl⟩

/-! ## DeleteVolume -/

/-- C4: when client construction succeeds, whatever the provider's delete-volume call
returns, `DeleteVolume` returns a non-nil response together with exactly the provider's
error (nil when the provider returned none), and the response's `Deleted` is true if
and only if the provider returned no error. -/
theorem DeleteVolume_deleted_iff_no_error {σ : Type} (svc : AWSController σ)
    (r : DeleteVolumeRequest) (w : World σ) (awsSvc : EC2 σ)
    (l1 : List LogEntry) (s1 s2 : σ)
    (out : Option DeleteVolumeOutput) (perr : Option Err)
    (hclient : svc.sessionClient r.Region w.log w.prov = ((some awsSvc, none), l1, s1))
    (hdel : awsSvc.DeleteVolume ⟨some r.Volumeid⟩ s1 = ((out, perr), s2)) :
    ∃ resp : DeleteVolumeResponse,
      (DeleteVolume svc (some r) w).1 = Outcome.returned (some resp) perr ∧
      (resp.Deleted = true ↔ perr = none) := by
  cases perr with
  | none =>
    exact ⟨{ Deleted := true }, by
      simp [DeleteVolume, DeleteVolumeRequest.GetVolumeid, aws.String, hclient, hdel]⟩
  | some e =>
    exact ⟨{ Deleted := false }, by
      simp [DeleteVolume, DeleteVolumeRequest.GetVolumeid, aws.String, hclient, hdel]⟩

theorem DeleteVolume_deleted_iff_no_error_witness :
    (scriptedClient deleteFailsScript).DeleteVolume ⟨some deleteRequest.Volumeid⟩ [] =
      ((some {}, some volumeInUse), [Call.deleteVolume ⟨some "vol-1"⟩]) ∧
    ∃ resp : DeleteVolumeResponse,
      (DeleteVolume (scriptedSvc deleteFailsScript) (some deleteRequest) freshWorld).1 =
        Outcome.returned (some resp) (some volumeInUse) ∧
      (resp.Deleted = true ↔ some volumeInUse = none) :=
  ⟨rfl, DeleteVolume_deleted_iff_no_error (scriptedSvc deleteFailsScript) deleteRequest
    freshWorld (scriptedClient deleteFailsScript) [] [] _ _ (some volumeInUse) rfl rfl⟩

/-- C9: two consecutive `DeleteVolume` invocations with the same region and volume id,
client construction succeeding both times, invoke the provider's delete-volume exactly
twice, each time with that volume id; the first invocation reports the outcome of the
first provider call and the second that of the second (`Deleted` true with a nil error
on success, `Deleted` false with the provider's error otherwise), whatever the pair of
provider outcomes. -/
theorem DeleteVolume_twice_forwards_both {σ : Type} (svc : AWSController σ)
    (r : DeleteVolumeRequest) (w : World σ) (c1 c2 : EC2 σ)
    (l1 l2 : List LogEntry) (s1 s2 s3 s4 : σ)
    (out1 out2 : Option DeleteVolumeOutput) (perr1 perr2 : Option Err)
    (hclient1 : svc.sessionClient r.Region w.log w.prov = ((some c1, none), l1, s1))
    (hdel1 : c1.DeleteVolume ⟨some r.Volumeid⟩ s1 = ((out1, perr1), s2))
    (hclient2 : svc.sessionClient r.Region (DeleteVolume svc (some r) w).2.log s2 =
      ((some c2, none), l2, s3))
    (hdel2 : c2.DeleteVolume ⟨some r.Volumeid⟩ s3 = ((out2, perr2), s4)) :
    (DeleteVolume svc (some r) w).1 =
      Outcome.returned (some { Deleted := perr1.isNone }) perr1 ∧
    (DeleteVolume svc (some r) (DeleteVolume svc (some r) w).2).1 =
      Outcome.returned (some { Deleted := perr2.isNone }) perr2 ∧
    (DeleteVolume svc (some r) (DeleteVolume svc (some r) w).2).2.calls =
      w.calls ++ [Call.deleteVolume ⟨some r.Volumeid⟩, Call.deleteVolume ⟨some r.Volumeid⟩] ∧
    deleteCalls (DeleteVolume svc (some r) (DeleteVolume svc (some r) w).2).2.calls =
      deleteCalls w.calls + 2 ∧
    (DeleteVolume svc (some r) (DeleteVolume svc (some r) w).2).2.prov = s4 := by
  have h1 : DeleteVolume svc (some r) w =
      (Outcome.returned (some { Deleted := perr1.isNone }) perr1,
        { prov := s2, log := LogError "DeleteVolume" l1 perr1,
          calls := w.calls ++ [Call.deleteVolume ⟨some r.Volumeid⟩] }) := by
    cases perr1 <;>
      simp [DeleteVolume, DeleteVolumeRequest.GetVolumeid, aws.String, hclient1, hdel1,
        LogError]
  rw [h1] at hclient2 ⊢
  cases perr2 <;>
    simp [DeleteVolume, DeleteVolumeRequest.GetVolumeid, aws.String, hclient2, hdel2,
      deleteCalls_append, deleteCalls]

theorem DeleteVolume_twice_forwards_both_witness :
    (scriptedClient deleteTwiceScript).DeleteVolume ⟨some deleteRequest.Volumeid⟩
        [Call.deleteVolume ⟨some "vol-1"⟩] =
      ((some {}, some notFound),
        [Call.deleteVolume ⟨some "vol-1"⟩, Call.deleteVolume ⟨some "vol-1"⟩]) ∧
    (DeleteVolume (scriptedSvc deleteTwiceScript) (some deleteRequest) freshWorld).1 =
      Outcome.returned (some { Deleted := true }) none ∧
    (DeleteVolume (scriptedSvc deleteTwiceScript) (some deleteRequest)
        (DeleteVolume (scriptedSvc deleteTwiceScript) (some deleteRequest)
          freshWorld).2).1 =
      Outcome.returned (some { Deleted := false }) (some notFound) ∧
    (DeleteVolume (scriptedSvc deleteTwiceScript) (some deleteRequest)
        (DeleteVolume (scriptedSvc deleteTwiceScript) (some deleteRequest)
          freshWorld).2).2.calls =
      freshWorld.calls ++
        [Call.deleteVolume ⟨some "vol-1"⟩, Call.deleteVolume ⟨some "vol-1"⟩] ∧
    deleteCalls (DeleteVolume (scriptedSvc deleteTwiceScript) (some deleteRequest)
        (DeleteVolume (scriptedSvc deleteTwiceScript) (some deleteRequest)
          freshWorld).2).2.calls = deleteCalls freshWorld.calls + 2 ∧
    (DeleteVolume (scriptedSvc deleteTwiceScript) (some deleteRequest)
        (DeleteVolume (scriptedSvc deleteTwiceScript) (some deleteRequest)
          freshWorld).2).2.prov =
      [Call.deleteVolume ⟨some "vol-1"⟩, Call.deleteVolume ⟨some "vol-1"⟩] :=
  ⟨rfl, DeleteVolume_twice_forwards_both (scriptedSvc deleteTwiceScript) deleteRequest
    freshWorld (scriptedClient deleteTwiceScript) (scriptedClient deleteTwiceScript)
    [] [] [] _ _ _ _ _ none (some notFound) rfl rfl rfl rfl⟩

/-! ## CreateVolume -/

/-- C6 (as stated, refuted): a valid request (positive size, region resolving to a
client) for which `CreateVolume` returns a nil error and an empty `Volumeid`, the
provider having answered with an empty identifier. -/
theorem CreateVolume_success_with_empty_id :
    0 < volumeRequest.Size ∧
    (scriptedSvc emptyIdScript).sessionClient volumeRequest.Region freshWorld.log
        freshWorld.prov = ((some (scriptedClient emptyIdScript), none), [], []) ∧
    (CreateVolume (scriptedSvc emptyIdScript) (some volumeRequest) freshWorld).1 =
      Outcome.returned (some { Volumeid := "", Error := "" }) none :=
  ⟨by decide, rfl, by decide⟩

/-- C6 (amended): for a valid request (positive size, region resolving to a client),
`CreateVolume` returns a nil error exactly on the provider's error-free answers that
carry an identifier, and the response's `Volumeid` then equals that provider-assigned
identifier; it is non-empty if and only if the provider's identifier is. -/
theorem CreateVolume_success_returns_provider_id {σ : Type} (svc : AWSController σ)
    (r : CreateVolumeRequest) (w : World σ) (awsSvc : EC2 σ)
    (l1 : List LogEntry) (s1 s2 : σ)
    (result : Option Volume) (perr : Option Err)
    (_hpos : 0 < r.Size)
    (hclient : svc.sessionClient r.Region w.log w.prov = ((some awsSvc, none), l1, s1))
    (hcall : awsSvc.CreateVolume
        ⟨some r.Availabilityzone, some r.Volumetype, some r.Size, some r.Snapshotid⟩ s1 =
      ((result, perr), s2)) :
    (∀ id, result = some ⟨some id⟩ → perr = none →
      (CreateVolume svc (some r) w).1 =
        Outcome.returned (some { Volumeid := id, Error := "" }) none) ∧
    (∀ resp, (CreateVolume svc (some r) w).1 = Outcome.returned resp none →
      ∃ id x, result = some ⟨some id⟩ ∧ perr = none ∧ resp = some x ∧
        x.Volumeid = id ∧ (x.Volumeid ≠ "" ↔ id ≠ "")) := by
  constructor
  · intro id hres hperr
    subst hres hperr
    simp [CreateVolume, CreateVolumeRequest.GetAvailabilityzone,
      CreateVolumeRequest.GetVolumetype, CreateVolumeRequest.GetSize,
      CreateVolumeRequest.GetSnapshotid, aws.String, aws.Int64, hclient, hcall]
  · intro resp hret
    cases perr with
    | some e =>
      simp [CreateVolume, CreateVolumeRequest.GetAvailabilityzone,
        CreateVolumeRequest.GetVolumetype, CreateVolumeRequest.GetSize,
        CreateVolumeRequest.GetSnapshotid, aws.String, aws.Int64, hclient, hcall] at hret
    | none =>
      rcases result with _ | ⟨_ | id⟩
      · simp [CreateVolume, CreateVolumeRequest.GetAvailabilityzone,
          CreateVolumeRequest.GetVolumetype, CreateVolumeRequest.GetSize,
          CreateVolumeRequest.GetSnapshotid, aws.String, aws.Int64, hclient, hcall] at hret
      · simp [CreateVolume, CreateVolumeRequest.GetAvailabilityzone,
          CreateVolumeRequest.GetVolumetype, CreateVolumeRequest.GetSize,
          CreateVolumeRequest.GetSnapshotid, aws.String, aws.Int64, hclient, hcall] at hret
      · simp [CreateVolume, CreateVolumeRequest.GetAvailabilityzone,
          CreateVolumeRequest.GetVolumetype, CreateVolumeRequest.GetSize,
          CreateVolumeRequest.GetSnapshotid, aws.String, aws.Int64, hclient, hcall] at hret
        exact ⟨id, { Volumeid := id, Error := "" }, rfl, rfl, hret.symm, rfl, Iff.rfl⟩

theorem CreateVolume_success_returns_provider_id_witness :
    0 < volumeRequest.Size ∧
    (CreateVolume (scriptedSvc happyScript) (some volumeRequest) freshWorld).1 =
      Outcome.returned (some { Volumeid := "vol-9", Error := "" }) none :=
  ⟨by decide,
    (CreateVolume_success_returns_provider_id (scriptedSvc happyScript) volumeRequest
      freshWorld (scriptedClient happyScript) [] [] _ _ none (by decide) rfl rfl).1
      "vol-9" rfl rfl⟩

/-- C7 (as stated, refuted): a request whose `Snapshotid` is empty for which the input
handed to the provider's volume-create has its `SnapshotId` field present, holding the
empty string, rather than absent. -/
theorem CreateVolume_empty_snapshot_id_is_sent :
    volumeRequest.Snapshotid = "" ∧
    (CreateVolume (scriptedSvc happyScript) (some volumeRequest) freshWorld).2.prov =
      [Call.createVolume
        { AvailabilityZone := some "us-east-1a", VolumeType := some "gp2", Size := some 8,
          SnapshotId := some "" }] ∧
    (CreateVolume (scriptedSvc happyScript) (some volumeRequest) freshWorld).2.calls =
      [Call.createVolume
        { AvailabilityZone := some "us-east-1a", VolumeType := some "gp2", Size := some 8,
          SnapshotId := some "" }] ∧
    ¬ (Call.createVolume
        { AvailabilityZone := some "us-east-1a", VolumeType := some "gp2", Size := some 8,
          SnapshotId := none } ∈
      (CreateVolume (scriptedSvc happyScript) (some volumeRequest) freshWorld).2.calls) :=
  ⟨by decide, by decide, by decide, by decide⟩

/-- C7 (amended): for every request whose `Snapshotid` is empty, once a client is
obtained the provider's volume-create is invoked exactly once, with an input whose
availability zone, volume type and size are the request's fields and whose `SnapshotId`
field is present and holds the empty string. -/
theorem CreateVolume_request_mapping {σ : Type} (svc : AWSController σ)
    (r : CreateVolumeRequest) (w : World σ) (awsSvc : EC2 σ)
    (l1 : List LogEntry) (s1 : σ)
    (hempty : r.Snapshotid = "")
    (hclient : svc.sessionClient r.Region w.log w.prov = ((some awsSvc, none), l1, s1)) :
    (CreateVolume svc (some r) w).2.calls =
      w.calls ++ [Call.createVolume
        { AvailabilityZone := some r.Availabilityzone, VolumeType := some r.Volumetype,
          Size := some r.Size, SnapshotId := some "" }] ∧
    (CreateVolume svc (some r) w).2.prov =
      (awsSvc.CreateVolume
        { AvailabilityZone := some r.Availabilityzone, VolumeType := some r.Volumetype,
          Size := some r.Size, SnapshotId := some "" } s1).2 := by
  rcases hcall : awsSvc.CreateVolume
      { AvailabilityZone := some r.Availabilityzone, VolumeType := some r.Volumetype,
        Size := some r.Size, SnapshotId := some "" } s1 with ⟨⟨result, perr⟩, s2⟩
  cases perr with
  | some e =>
    simp [CreateVolume, CreateVolumeRequest.GetAvailabilityzone,
      CreateVolumeRequest.GetVolumetype, CreateVolumeRequest.GetSize,
      CreateVolumeRequest.GetSnapshotid, aws.String, aws.Int64, hclient, hempty, hcall]
  | none =>
    rcases result with _ | ⟨_ | id⟩ <;>
      simp [CreateVolume, CreateVolumeRequest.GetAvailabilityzone,
        CreateVolumeRequest.GetVolumetype, CreateVolumeRequest.GetSize,
        CreateVolumeRequest.GetSnapshotid, aws.String, aws.Int64, hclient, hempty, hcall]

theorem CreateVolume_request_mapping_witness :
    volumeRequest.Snapshotid = "" ∧
    (CreateVolume (scriptedSvc createFailsScript) (some volumeRequest) freshWorld).2.calls =
      freshWorld.calls ++ [Call.createVolume
        { AvailabilityZone := some "us-east-1a", VolumeType := some "gp2", Size := some 8,
          SnapshotId := some "" }] :=
  ⟨rfl, (CreateVolume_request_mapping (scriptedSvc createFailsScript) volumeRequest
    freshWorld (scriptedClient createFailsScript) [] [] rfl rfl).1⟩

/-- C8 (as stated, refuted): a request for which client construction fails, so that
`CreateVolume` returns a non-nil error, while the only entry the logger has received is
the session-failure one, in which the operation name "CreateVolume" does not occur. -/
theorem CreateVolume_session_failure_log_lacks_operation :
    (CreateVolume (failingSvc noCredentials) (some volumeRequest) freshWorld).1 =
      Outcome.returned none (some noCredentials) ∧
    (CreateVolume (failingSvc noCredentials) (some volumeRequest) freshWorld).2.log =
      [⟨"Can't start AWS session", [LogValue.str "error", LogValue.err noCredentials]⟩] ∧
    ∀ en ∈ (CreateVolume (failingSvc noCredentials) (some volumeRequest) freshWorld).2.log,
      en.includes "CreateVolume" = false :=
  ⟨by decide, by decide, by decide⟩

/-- C8 (amended): whenever `CreateVolume` returns a non-nil error `e`, the handler has
added to the logger, after whatever the client factory left in it, at least one entry
that includes the text of `e`; and when the error comes from the provider's
volume-create call (the factory returned no error), one of the added entries includes
both the operation name "CreateVolume" and the text of `e`. -/
theorem CreateVolume_failure_is_logged {σ : Type} (svc : AWSController σ)
    (r : CreateVolumeRequest) (w : World σ) (resp : Option CreateVolumeResponse) (e : Err)
    (hret : (CreateVolume svc (some r) w).1 = Outcome.returned resp (some e)) :
    ∃ new : List LogEntry,
      (CreateVolume svc (some r) w).2.log =
        (svc.sessionClient r.Region w.log w.prov).2.1 ++ new ∧
      (∃ en ∈ new, en.includes e.text = true) ∧
      ((svc.sessionClient r.Region w.log w.prov).1.2 = none →
        ∃ en ∈ new, en.includes "CreateVolume" = true ∧ en.includes e.text = true) := by
  rcases hclient : svc.sessionClient r.Region w.log w.prov with ⟨⟨c, ferr⟩, l1, s1⟩
  rcases ferr with _ | e1
  · rcases c with _ | awsSvc
    · simp [CreateVolume, hclient] at hret
    · rcases hcall : awsSvc.CreateVolume
          ⟨some r.Availabilityzone, some r.Volumetype, some r.Size, some r.Snapshotid⟩ s1
        with ⟨⟨result, perr⟩, s2⟩
      cases perr with
      | none =>
        rcases result with _ | ⟨_ | id⟩ <;>
          simp [CreateVolume, CreateVolumeRequest.GetAvailabilityzone,
            CreateVolumeRequest.GetVolumetype, CreateVolumeRequest.GetSize,
            CreateVolumeRequest.GetSnapshotid, aws.String, aws.Int64, hclient, hcall]
            at hret
      | some e2 =>
        simp [CreateVolume, CreateVolumeRequest.GetAvailabilityzone,
          CreateVolumeRequest.GetVolumetype, CreateVolumeRequest.GetSize,
          CreateVolumeRequest.GetSnapshotid, aws.String, aws.Int64, hclient, hcall] at hret
        obtain ⟨-, rfl⟩ := hret
        have hboth : ∃ en ∈
            [(⟨"Error in ", [LogValue.str "method : ", LogValue.str "CreateVolume",
                LogValue.str "error", LogValue.str e2.text]⟩ : LogEntry),
              ⟨"Error in ", [LogValue.str "method : ", LogValue.str "CreateVolume",
                LogValue.str "error", LogValue.err e2]⟩],
            en.includes "CreateVolume" = true ∧ en.includes e2.text = true :=
          ⟨_, List.mem_cons_self _ _,
            includes_of_mem _ (LogValue.str "CreateVolume") (by simp),
            includes_of_mem _ (LogValue.str e2.text) (by simp)⟩
        refine ⟨[⟨"Error in ", [LogValue.str "method : ", LogValue.str "CreateVolume",
              LogValue.str "error", LogValue.str e2.text]⟩,
            ⟨"Error in ", [LogValue.str "method : ", LogValue.str "CreateVolume",
              LogValue.str "error", LogValue.err e2]⟩], ?_, ?_, ?_⟩
        · simp only [CreateVolume, CreateVolumeRequest.GetAvailabilityzone,
            CreateVolumeRequest.GetVolumetype, CreateVolumeRequest.GetSize,
            CreateVolumeRequest.GetSnapshotid, aws.String, aws.Int64, hclient, hcall]
          exact LogError_some "CreateVolume" l1 e2
        · obtain ⟨en, hmem, -, htext⟩ := hboth
          exact ⟨en, hmem, htext⟩
        · intro _
          exact hboth
  · simp [CreateVolume, hclient] at hret
    obtain ⟨-, rfl⟩ := hret
    refine ⟨[sessionFailureEntry e1], by simp [CreateVolume, hclient], ?_, ?_⟩
    · exact ⟨sessionFailureEntry e1, by simp,
        includes_of_mem (sessionFailureEntry e1) (LogValue.err e1)
          (by simp [sessionFailureEntry])⟩
    · intro hc
      simp at hc

theorem CreateVolume_failure_is_logged_witness :
    (CreateVolume (scriptedSvc createFailsScript) (some volumeRequest) freshWorld).1 =
      Outcome.returned (some {}) (some notFound) ∧
    ∃ new : List LogEntry,
      (CreateVolume (scriptedSvc createFailsScript) (some volumeRequest) freshWorld).2.log =
        ((scriptedSvc createFailsScript).sessionClient volumeRequest.Region freshWorld.log
          freshWorld.prov).2.1 ++ new ∧
      (∃ en ∈ new, en.includes notFound.text = true) ∧
      (((scriptedSvc createFailsScript).sessionClient volumeRequest.Region freshWorld.log
          freshWorld.prov).1.2 = none →
        ∃ en ∈ new, en.includes "CreateVolume" = true ∧ en.includes notFound.text = true) :=
  ⟨by decide, CreateVolume_failure_is_logged (scriptedSvc createFailsScript) volumeRequest
    freshWorld (some {}) notFound (by decide)⟩

/-! ## Absence of nil dereference -/

end Spawner
